import Mathlib

/-!
Verification of the shopping-cart pricing core (src/main.rs).

Embedding conventions:
* `f64` monetary amounts are modelled as `ℚ` (the pricing formulas use only
  addition, multiplication and division by constants).
* `usize` / `u32` / `u8` quantities are modelled as `ℕ`; the JSON integer fed
  to the percentage deserializer is modelled as `ℤ` (it may be negative or
  exceed the `u8` range).
* A Rust panic (`unwrap` on a failed lookup or deserialization) is modelled as
  an explicit failure value (`Option.none`, or a dedicated `panicked`
  constructor).
* `chrono::NaiveDate` is modelled by the fields the pricing code observes:
  its month, its day, and its weekday (the year is carried but never read by
  the pricing logic, which is exactly how `total` treats it).
-/

namespace ShoppingCartModel

/-- The seven weekdays of `chrono::Weekday`. -/
inductive Weekday where
  | mon | tue | wed | thu | fri | sat | sun
deriving DecidableEq, Repr

/-- The observable fields of `chrono::NaiveDate` used by `ShoppingCart::total`:
`date.month()`, `date.day()`, `date.weekday()`.  The year is never consulted
by the pricing code. -/
structure NaiveDate where
  year : ℕ
  month : ℕ
  day : ℕ
  weekday : Weekday
deriving DecidableEq, Repr

/-- `struct BulkPricing { amount: u32, total_price: f64 }`. -/
structure BulkPricing where
  amount : ℕ
  total_price : ℚ
deriving DecidableEq, Repr

/-- `enum SalePrice { QuantityForFixedPrice(u32, f64), PercentageOff(u8), TwoForOne }`. -/
inductive SalePrice where
  | quantityForFixedPrice (sale_quantity : ℕ) (sale_price : ℚ)
  | percentageOff (discount : ℕ)
  | twoForOne
deriving DecidableEq, Repr

/-- `enum SaleDate { MonthAndDay(u32, u32), DayOfWeek(Weekday) }`. -/
inductive SaleDate where
  | monthAndDay (month : ℕ) (day : ℕ)
  | dayOfWeek (weekday : Weekday)
deriving DecidableEq, Repr

/-- `struct Sale { date: SaleDate, sale_price: SalePrice }`. -/
structure Sale where
  date : SaleDate
  sale_price : SalePrice
deriving DecidableEq, Repr

/-- `struct Item` (the `image_url` field is kept for fidelity; pricing never
reads it). -/
structure Item where
  id : ℕ
  name : String
  image_url : String
  price : ℚ
  bulk_pricing : Option BulkPricing
  sale : Option Sale
deriving DecidableEq, Repr

/-- The guard conditions of the `match &sale.date` arms in
`ShoppingCart::total`: `DayOfWeek(weekday) if date.weekday() == *weekday` and
`MonthAndDay(month, day) if date.month() == *month && date.day() == *day`. -/
def sale_date_matches (sd : SaleDate) (date : NaiveDate) : Bool :=
  match sd with
  | .dayOfWeek weekday => date.weekday = weekday
  | .monthAndDay month day => date.month = month && date.day = day

/-- `ShoppingCart::apply_sale_price`. -/
def apply_sale_price (sp : SalePrice) (quantity : ℕ) (price : ℚ) : ℚ :=
  match sp with
  | .quantityForFixedPrice sale_quantity sale_price =>
      let bulk_count := quantity / sale_quantity
      let remainder := quantity % sale_quantity
      (bulk_count : ℚ) * sale_price + (remainder : ℚ) * price
  | .percentageOff discount =>
      let discounted_price := price * ((100 - discount : ℕ) : ℚ) / 100
      discounted_price * (quantity : ℚ)
  | .twoForOne =>
      let pairs := quantity / 2
      let remainder := quantity % 2
      (pairs : ℚ) * price + (remainder : ℚ) * price

/-- The per-line pricing expression of the loop body of `ShoppingCart::total`:
if a sale is present and its date guard matches, apply the sale price; if a
sale is present but its guard does not match, charge `quantity * price`
(the fall-through `_` arm); if no sale is present, apply bulk pricing when
`quantity >= bulk_pricing.amount`, else charge `quantity * price`. -/
def priceFor (item : Item) (quantity : ℕ) (date : NaiveDate) : ℚ :=
  match item.sale with
  | some sale =>
      if sale_date_matches sale.date date then
        apply_sale_price sale.sale_price quantity item.price
      else
        (quantity : ℚ) * item.price
  | none =>
      match item.bulk_pricing with
      | some bulk_pricing =>
          if bulk_pricing.amount ≤ quantity then
            ((quantity / bulk_pricing.amount : ℕ) : ℚ) * bulk_pricing.total_price
              + ((quantity % bulk_pricing.amount : ℕ) : ℚ) * item.price
          else
            (quantity : ℚ) * item.price
      | none => (quantity : ℚ) * item.price

/-- `items.iter().find(|item| item.name == *product)`. -/
def find_item (items : List Item) (product : String) : Option Item :=
  items.find? (fun item => item.name == product)

/-- The accumulator loop of `ShoppingCart::total`: `total = 0.0`, then for
each `(product, quantity)` cart entry, `unwrap` the catalog lookup (a failed
lookup panics, modelled as `none`) and add the line price. -/
def totalAux (items : List Item) (date : NaiveDate) :
    List (String × ℕ) → ℚ → Option ℚ
  | [], acc => some acc
  | (product, quantity) :: rest, acc =>
      match find_item items product with
      | some item => totalAux items date rest (acc + priceFor item quantity date)
      | none => none

/-- `ShoppingCart::total` over a given entry sequence of the cart's
name-to-quantity mapping. -/
def total (items : List Item) (date : NaiveDate) (cart : List (String × ℕ)) :
    Option ℚ :=
  totalAux items date cart 0

/-- Outcome of `deserialize_percentage` on a JSON integer: a successfully
validated percentage, a graceful `invalid_value` deserialization error, or a
panic (the `unwrap` on a failed `u8::deserialize`). -/
inductive DeserializeOutcome where
  | ok (value : ℕ)
  | invalidValue
  | panicked
deriving DecidableEq, Repr

/-- `u8::deserialize` on a JSON integer: succeeds exactly when the value fits
in `u8` (0 to 255), otherwise reports an error. -/
def u8_deserialize (v : ℤ) : Option ℕ :=
  if 0 ≤ v ∧ v ≤ 255 then some v.toNat else none

/-- `deserialize_percentage`: `u8::deserialize(deserializer).unwrap()` (panic
on failure), then `0..=100 => Ok(percentage)`, otherwise an `invalid_value`
error. -/
def deserialize_percentage (v : ℤ) : DeserializeOutcome :=
  match u8_deserialize v with
  | some percentage =>
      if percentage ≤ 100 then .ok percentage else .invalidValue
  | none => .panicked

end ShoppingCartModel

namespace ShoppingCartModel

/-! ### Concrete catalog values used by counterexamples and witnesses -/

/-- A catalog item with a bulk rule (2 for 3) and no sale. -/
def bulkOnlyItem : Item :=
  ⟨1, "Brownie", "", 2, some ⟨2, 3⟩, none⟩

/-- The same item with an additional Friday sale rule. -/
def bulkAndSaleItem : Item :=
  ⟨1, "Brownie", "", 2, some ⟨2, 3⟩, some ⟨.dayOfWeek .fri, .twoForOne⟩⟩

/-- A Monday (sale guard of `bulkAndSaleItem` does not match). -/
def someMonday : NaiveDate := ⟨2021, 10, 4, .mon⟩

/-- A Friday that is also October 1. -/
def fridayOctFirst : NaiveDate := ⟨2021, 10, 1, .fri⟩

/-! ### C1 -/

/-- Claim C1 (counterexample): for the item with bulk rule (2 for 3.00), unit
price 2.00 and a Friday sale rule, evaluated on a Monday with quantity 2, the
code charges 2 * 2.00 = 4.00, not the bulk formula value 3.00 that the claim
predicts for a non-matching sale. -/
theorem c1_counterexample :
    ¬ (priceFor bulkAndSaleItem 2 someMonday =
        ((2 / 2 : ℕ) : ℚ) * 3 + ((2 % 2 : ℕ) : ℚ) * 2) := by
  have h4 : priceFor bulkAndSaleItem 2 someMonday = 4 := by
    simp [priceFor, bulkAndSaleItem, someMonday, sale_date_matches]
    norm_num
  rw [h4]
  norm_num

/-- Claim C1 (amended): with a bulkRule(n, p), the bulk formula
`(q div n) * p + (q mod n) * unitPrice` is charged only when NO saleRule is
present at all; when a saleRule is present but its recurrence does not match
the date, the line is charged plain `q * unitPrice` and the bulkRule is
ignored. -/
theorem c1_bulk_only_without_sale (item : Item) (q : ℕ) (date : NaiveDate)
    (n : ℕ) (p : ℚ) (hb : item.bulk_pricing = some ⟨n, p⟩) (hn : 1 ≤ n) :
    (item.sale = none →
      priceFor item q date = ((q / n : ℕ) : ℚ) * p + ((q % n : ℕ) : ℚ) * item.price)
    ∧ (∀ s, item.sale = some s → sale_date_matches s.date date = false →
      priceFor item q date = (q : ℚ) * item.price) := by
  constructor
  · intro hs
    simp only [priceFor, hs, hb]
    by_cases h : n ≤ q
    · simp [h]
    · have hlt : q < n := Nat.lt_of_not_le h
      simp [h, Nat.div_eq_of_lt hlt, Nat.mod_eq_of_lt hlt]
  · intro s hs hm
    simp [priceFor, hs, hm]

/-- Witness for the amended C1: on the bulk-only item (2 for 3.00, unit price
2.00), quantity 5 is charged 2 * 3.00 + 1 * 2.00; on the item that also has a
Friday sale, a Monday evaluation at quantity 5 is charged 5 * 2.00. -/
theorem c1_bulk_only_without_sale_witness :
    priceFor bulkOnlyItem 5 someMonday =
        ((5 / 2 : ℕ) : ℚ) * 3 + ((5 % 2 : ℕ) : ℚ) * 2
    ∧ priceFor bulkAndSaleItem 5 someMonday = (5 : ℚ) * 2 :=
  ⟨(c1_bulk_only_without_sale bulkOnlyItem 5 someMonday 2 3 rfl (by decide)).1 rfl,
   (c1_bulk_only_without_sale bulkAndSaleItem 5 someMonday 2 3 rfl (by decide)).2
     ⟨.dayOfWeek .fri, .twoForOne⟩ rfl (by decide)⟩

/-! ### C2 and C9: the TwoForOne formula -/

/-- Claim C2 (counterexample): at quantity 2 and unit price 1.00, the
TwoForOne branch charges 1.00 (one unit price per complete pair), not the
full price 2 * 1.00 = 2.00 the claim states. -/
theorem c2_counterexample :
    ¬ (apply_sale_price SalePrice.twoForOne 2 1 = (2 : ℚ) * 1) := by
  norm_num [apply_sale_price]

/-- Claim C2 (amended): a matching TwoForOne sale charges
`(q div 2 + q mod 2) * unitPrice`: each complete pair of units costs one unit
price and a lone leftover unit costs full unit price — not `q * unitPrice`. -/
theorem c2_two_for_one_charges_half_pairs (q : ℕ) (p : ℚ) :
    apply_sale_price SalePrice.twoForOne q p = ((q / 2 + q % 2 : ℕ) : ℚ) * p := by
  simp only [apply_sale_price]
  push_cast
  ring

/-- `q / 2 + q % 2 = (q + 1) / 2` over the naturals. -/
lemma div_two_add_mod_two (q : ℕ) : q / 2 + q % 2 = (q + 1) / 2 := by
  omega

/-- Claim C9: the TwoForOne branch returns
`(q div 2) * p + (q mod 2) * p`, which equals `ceil(q / 2) * p`: one unit
price per complete pair, full unit price for a lone leftover unit. -/
theorem c9_two_for_one_formula (q : ℕ) (p : ℚ) :
    apply_sale_price SalePrice.twoForOne q p =
      ((q / 2 : ℕ) : ℚ) * p + ((q % 2 : ℕ) : ℚ) * p
    ∧ apply_sale_price SalePrice.twoForOne q p = (((q + 1) / 2 : ℕ) : ℚ) * p := by
  refine ⟨rfl, ?_⟩
  simp only [apply_sale_price, ← div_two_add_mod_two q]
  push_cast
  ring

end ShoppingCartModel

namespace ShoppingCartModel

/-! ### C3: a matching sale supersedes bulk pricing -/

/-- Claim C3: when an item has both a bulkRule and a saleRule and the sale's
recurrence matches the evaluation date, the line is priced by the sale's
discount formula; the bulk rule is never consulted (the `None` arm of the
sale match is the only path to bulk pricing). -/
theorem c3_matching_sale_supersedes_bulk (item : Item) (q : ℕ)
    (date : NaiveDate) (s : Sale) (b : BulkPricing)
    (hs : item.sale = some s) (hb : item.bulk_pricing = some b)
    (hm : sale_date_matches s.date date = true) :
    priceFor item q date = apply_sale_price s.sale_price q item.price := by
  simp [priceFor, hs, hm]

/-- Witness for C3: the item with bulk rule (2 for 3.00) and a Friday
TwoForOne sale, bought at quantity 4 (which meets the bulk threshold) on a
Friday, is priced by the sale formula. -/
theorem c3_matching_sale_supersedes_bulk_witness :
    2 ≤ 4 ∧ priceFor bulkAndSaleItem 4 fridayOctFirst =
      apply_sale_price SalePrice.twoForOne 4 2 :=
  ⟨by decide,
   c3_matching_sale_supersedes_bulk bulkAndSaleItem 4 fridayOctFirst
     ⟨.dayOfWeek .fri, .twoForOne⟩ ⟨2, 3⟩ rfl rfl rfl⟩

/-! ### C4: PercentageOff -/

/-- The Key Lime Cheesecake with a recurring October 1 sale of 25% off. -/
def percentSaleItem : Item :=
  ⟨2, "Key Lime Cheesecake", "", 8, none, some ⟨.monthAndDay 10 1, .percentageOff 25⟩⟩

/-- Claim C4: a matching PercentageOff(pct) sale with pct in [0, 100] charges
`q * unitPrice * (100 - pct) / 100`; in particular PercentageOff(0) charges
`q * unitPrice` and PercentageOff(100) charges 0. -/
theorem c4_percentage_off (item : Item) (q : ℕ) (date : NaiveDate)
    (sd : SaleDate) (pct : ℕ)
    (hs : item.sale = some ⟨sd, .percentageOff pct⟩)
    (hm : sale_date_matches sd date = true) (hpct : pct ≤ 100) :
    priceFor item q date = (q : ℚ) * item.price * ((100 : ℚ) - (pct : ℚ)) / 100
    ∧ (pct = 0 → priceFor item q date = (q : ℚ) * item.price)
    ∧ (pct = 100 → priceFor item q date = 0) := by
  have hmain :
      priceFor item q date = (q : ℚ) * item.price * ((100 : ℚ) - (pct : ℚ)) / 100 := by
    simp only [priceFor, hs, hm, apply_sale_price, if_true]
    rw [Nat.cast_sub hpct]
    push_cast
    ring
  refine ⟨hmain, fun h0 => ?_, fun h100 => ?_⟩
  · subst h0
    rw [hmain]
    push_cast
    ring
  · subst h100
    rw [hmain]
    norm_num

/-- Witness for C4: four cheesecakes at 8.00 with a matching 25%-off sale
cost 4 * 8.00 * 75 / 100 = 24.00. -/
theorem c4_percentage_off_witness :
    priceFor percentSaleItem 4 fridayOctFirst = 24 := by
  rw [(c4_percentage_off percentSaleItem 4 fridayOctFirst (.monthAndDay 10 1)
    25 rfl rfl (by norm_num)).1]
  norm_num [percentSaleItem]

/-! ### C8: zero quantity prices to zero -/

/-- Every sale-discount branch prices quantity 0 at 0. -/
lemma apply_sale_price_zero (sp : SalePrice) (price : ℚ) :
    apply_sale_price sp 0 price = 0 := by
  cases sp <;> simp [apply_sale_price]

/-- Claim C8: for every item whose present rules have positive bundle sizes
(the data-model invariant), quantity 0 is priced at 0 through every branch:
no rule, bulk rule, and each sale-discount variant. -/
theorem c8_zero_quantity_prices_zero (item : Item) (date : NaiveDate)
    (hb : ∀ b, item.bulk_pricing = some b → 1 ≤ b.amount)
    (hs : ∀ s n p, item.sale = some s →
      s.sale_price = SalePrice.quantityForFixedPrice n p → 1 ≤ n) :
    priceFor item 0 date = 0 := by
  rcases hsale : item.sale with _ | sale
  · rcases hbp : item.bulk_pricing with _ | b
    · simp [priceFor, hsale, hbp]
    · simp only [priceFor, hsale, hbp]
      split <;> simp
  · simp only [priceFor, hsale]
    split
    · exact apply_sale_price_zero sale.sale_price item.price
    · simp

/-- Witness for C8: the bulk-only item prices quantity 0 at 0. -/
theorem c8_zero_quantity_prices_zero_witness :
    priceFor bulkOnlyItem 0 someMonday = 0 :=
  c8_zero_quantity_prices_zero bulkOnlyItem someMonday
    (by rintro ⟨a, tp⟩ h; injection h with h; injection h with h1 h2
        show 1 ≤ a; omega)
    (by rintro s n p hs; simp [bulkOnlyItem] at hs)

end ShoppingCartModel

namespace ShoppingCartModel

/-! ### C5: iteration order does not affect the total -/

/-- The accumulator loop of `total` is invariant under permutation of the
cart's entry sequence (rational addition is commutative, and a failed lookup
fails in every order). -/
lemma totalAux_perm (items : List Item) (date : NaiveDate)
    {cart1 cart2 : List (String × ℕ)} (hp : cart1.Perm cart2) :
    ∀ acc : ℚ, totalAux items date cart1 acc = totalAux items date cart2 acc := by
  induction hp with
  | nil => intro acc; rfl
  | cons x _ ih =>
      intro acc
      obtain ⟨product, quantity⟩ := x
      simp only [totalAux]
      cases hx : find_item items product with
      | none => rfl
      | some item => exact ih _
  | swap x y l =>
      intro acc
      obtain ⟨px, qx⟩ := x
      obtain ⟨py, qy⟩ := y
      cases hx : find_item items px <;> cases hy : find_item items py <;>
        simp only [totalAux, hx, hy]
      rw [add_right_comm]
  | trans _ _ ih1 ih2 => intro acc; exact (ih1 acc).trans (ih2 acc)

/-- Claim C5: permuting the cart's entries never changes the result of
`total`, for every catalog and evaluation date. -/
theorem c5_total_order_independent (items : List Item) (date : NaiveDate)
    (cart1 cart2 : List (String × ℕ)) (hp : cart1.Perm cart2) :
    total items date cart1 = total items date cart2 :=
  totalAux_perm items date hp 0

/-- Witness for C5: swapping the two entries of a concrete cart leaves the
total unchanged. -/
theorem c5_total_order_independent_witness :
    total [bulkOnlyItem, percentSaleItem] someMonday
        [("Brownie", 1), ("Key Lime Cheesecake", 2)]
      = total [bulkOnlyItem, percentSaleItem] someMonday
        [("Key Lime Cheesecake", 2), ("Brownie", 1)] :=
  c5_total_order_independent _ _ _ _ (List.Perm.swap _ _ _)

/-! ### C6: lookup failure is fatal; otherwise `total` sums line prices -/

/-- If some cart entry resolves to no catalog item, the loop of `total`
fails, whatever the accumulator. -/
lemma totalAux_none_of_missing (items : List Item) (date : NaiveDate) :
    ∀ (cart : List (String × ℕ)) (acc : ℚ),
      (∃ e ∈ cart, find_item items e.1 = none) →
      totalAux items date cart acc = none := by
  intro cart
  induction cart with
  | nil => rintro acc ⟨e, he, _⟩; exact absurd he (List.not_mem_nil e)
  | cons x rest ih =>
      rintro acc ⟨e, he, hnone⟩
      obtain ⟨p, q⟩ := x
      simp only [totalAux]
      cases hx : find_item items p with
      | none => rfl
      | some item =>
          rcases List.mem_cons.mp he with rfl | hrest
          · simp [hx] at hnone
          · exact ih _ ⟨e, hrest, hnone⟩

/-- If every cart entry resolves, the loop of `total` returns the
accumulator plus the sum of the per-line prices. -/
lemma totalAux_sum (items : List Item) (date : NaiveDate) :
    ∀ (cart : List (String × ℕ)) (acc : ℚ),
      (∀ e ∈ cart, (find_item items e.1).isSome) →
      totalAux items date cart acc =
        some (acc + (cart.map (fun e =>
          (find_item items e.1).elim 0 (fun item => priceFor item e.2 date))).sum) := by
  intro cart
  induction cart with
  | nil => intro acc _; simp [totalAux]
  | cons x rest ih =>
      intro acc h
      obtain ⟨p, q⟩ := x
      cases hsome : find_item items p with
      | none =>
          exfalso
          have hx := h (p, q) (List.mem_cons_self _ _)
          simp [hsome] at hx
      | some item =>
          simp only [totalAux, hsome]
          rw [ih _ (fun e he => h e (List.mem_cons_of_mem _ he))]
          simp only [List.map_cons, List.sum_cons, hsome, Option.elim]
          congr 1
          ring

/-- Claim C6: a cart entry that matches no catalog item makes `total` fail
(the unwrapped lookup panics, no recovery); when every entry resolves,
`total` returns the sum of per-line prices accumulated from 0; the empty
cart totals 0. -/
theorem c6_lookup_failure_and_sum (items : List Item) (date : NaiveDate)
    (cart : List (String × ℕ)) :
    ((∃ e ∈ cart, find_item items e.1 = none) → total items date cart = none)
    ∧ ((∀ e ∈ cart, (find_item items e.1).isSome) →
        total items date cart =
          some ((cart.map (fun e =>
            (find_item items e.1).elim 0 (fun item => priceFor item e.2 date))).sum))
    ∧ (cart = [] → total items date cart = some 0) := by
  refine ⟨fun h => totalAux_none_of_missing items date cart 0 h,
          fun h => ?_, fun h => by subst h; rfl⟩
  rw [total, totalAux_sum items date cart 0 h, zero_add]

/-- Witness for C6: a cart naming an unknown product fails; a resolving cart
of two brownies (bulk 2 for 3.00) totals 3.00; the empty cart totals 0. -/
theorem c6_lookup_failure_and_sum_witness :
    total [bulkOnlyItem] someMonday [("Nonexistent", 1)] = none
    ∧ total [bulkOnlyItem] someMonday [("Brownie", 2)] = some 3
    ∧ total [bulkOnlyItem] someMonday [] = some 0 := by
  refine ⟨(c6_lookup_failure_and_sum [bulkOnlyItem] someMonday
            [("Nonexistent", 1)]).1
            ⟨("Nonexistent", 1), List.mem_singleton.mpr rfl, rfl⟩,
          ?_,
          (c6_lookup_failure_and_sum [bulkOnlyItem] someMonday []).2.2 rfl⟩
  rw [(c6_lookup_failure_and_sum [bulkOnlyItem] someMonday
        [("Brownie", 2)]).2.1 (by intro e he; simp at he; subst he; rfl)]
  norm_num [find_item, bulkOnlyItem, someMonday, priceFor]

end ShoppingCartModel

namespace ShoppingCartModel

/-! ### C7 and C10: the percentage deserializer -/

/-- Claim C7 (counterexample): the input -1 lies outside [0, 100], yet rule
construction does not fail with the deserializer's validation error — the
`unwrap` on the failed `u8` deserialization panics instead. -/
theorem c7_counterexample :
    deserialize_percentage (-1) = DeserializeOutcome.panicked
    ∧ DeserializeOutcome.panicked ≠ DeserializeOutcome.invalidValue := by
  exact ⟨rfl, by decide⟩

/-- Claim C7 (amended): inputs in [0, 100] are accepted unchanged (never
clamped); inputs in [101, 255] fail with the invalid-value validation error
at load time; inputs outside the `u8` range (negative or above 255) panic in
the deserializer's `unwrap` instead of producing a validation error. -/
theorem c7_percentage_validation (v : ℤ) :
    (0 ≤ v → v ≤ 100 → deserialize_percentage v = .ok v.toNat)
    ∧ (101 ≤ v → v ≤ 255 → deserialize_percentage v = .invalidValue)
    ∧ (v < 0 ∨ 255 < v → deserialize_percentage v = .panicked) := by
  refine ⟨fun h0 h100 => ?_, fun h101 h255 => ?_, fun hout => ?_⟩
  · simp only [deserialize_percentage, u8_deserialize]
    rw [if_pos ⟨h0, by omega⟩]
    show (if v.toNat ≤ 100 then DeserializeOutcome.ok v.toNat
          else DeserializeOutcome.invalidValue) = DeserializeOutcome.ok v.toNat
    rw [if_pos (by omega : v.toNat ≤ 100)]
  · simp only [deserialize_percentage, u8_deserialize]
    rw [if_pos ⟨by omega, h255⟩]
    show (if v.toNat ≤ 100 then DeserializeOutcome.ok v.toNat
          else DeserializeOutcome.invalidValue) = DeserializeOutcome.invalidValue
    rw [if_neg (by omega : ¬ v.toNat ≤ 100)]
  · simp only [deserialize_percentage, u8_deserialize]
    rw [if_neg (by omega : ¬ (0 ≤ v ∧ v ≤ 255))]

/-- Witness for the amended C7: 50 is accepted as 50, 101 is rejected with
the validation error, and -1 panics. -/
theorem c7_percentage_validation_witness :
    deserialize_percentage 50 = DeserializeOutcome.ok 50
    ∧ deserialize_percentage 101 = DeserializeOutcome.invalidValue
    ∧ deserialize_percentage (-1) = DeserializeOutcome.panicked :=
  ⟨(c7_percentage_validation 50).1 (by decide) (by decide),
   (c7_percentage_validation 101).2.1 (by decide) (by decide),
   (c7_percentage_validation (-1)).2.2 (by decide)⟩

/-- Claim C10: the deserializer yields its graceful invalid-value error
exactly for inputs in [101, 255] (those that fit `u8` but exceed 100), while
inputs outside the `u8` range, such as -1 and 300, panic in the `unwrap`
rather than reporting the validation failure. -/
theorem c10_panics_outside_u8_range (v : ℤ) :
    (deserialize_percentage v = DeserializeOutcome.invalidValue ↔
      101 ≤ v ∧ v ≤ 255)
    ∧ deserialize_percentage (-1) = DeserializeOutcome.panicked
    ∧ deserialize_percentage 300 = DeserializeOutcome.panicked := by
  refine ⟨⟨fun h => ?_, fun hrange => ?_⟩, rfl, rfl⟩
  · by_cases hin : 0 ≤ v ∧ v ≤ 255
    · simp only [deserialize_percentage, u8_deserialize, if_pos hin] at h
      by_cases hle : v.toNat ≤ 100
      · rw [if_pos hle] at h
        exact absurd h (by simp)
      · exact ⟨by omega, hin.2⟩
    · simp only [deserialize_percentage, u8_deserialize, if_neg hin] at h
      exact absurd h (by simp)
  · simp only [deserialize_percentage, u8_deserialize]
    rw [if_pos ⟨by omega, hrange.2⟩]
    show (if v.toNat ≤ 100 then DeserializeOutcome.ok v.toNat
          else DeserializeOutcome.invalidValue) = DeserializeOutcome.invalidValue
    rw [if_neg (by omega : ¬ v.toNat ≤ 100)]

/-- Witness for C10: 101 yields the invalid-value error and 254 does too,
via the characterization. -/
theorem c10_panics_outside_u8_range_witness :
    deserialize_percentage 254 = DeserializeOutcome.invalidValue :=
  (c10_panics_outside_u8_range 254).1.mpr ⟨by decide, by decide⟩

end ShoppingCartModel
